import Mathlib

/-!
Verification of the SMTP client in `smtp_client/smtp.py`.

Python `str` values (command lines, server replies, addresses) are modelled as
`List Char`; the credential byte strings handed to the base64 encoder are
modelled as `List Nat` (each element one byte value, `< 256`).  Every session
operation of class `Smtp` is embedded as a pure function taking the session
state together with the reply string the server delivers for that exchange,
and returning the exact wire bytes sent, the state after the call, and either
the returned reply or the raised `RuntimeError` as a structured value.
Address wrapping, which in Python raises `IndexError` on the empty string, is
embedded with `Option`.
-/

/-- Module-level constant `CRLF` of smtp.py, the string of a carriage return
followed by a line feed. -/
def CRLF : List Char := ['\r', '\n']

/-- Module-level constant `SMTP_PORT = 25` of smtp.py. -/
def SMTP_PORT : Nat := 25

/-- Module-level constant `NULL` of smtp.py, the one-byte string holding the
NUL byte, as a byte string. -/
def NULL : List Nat := [0]

namespace status

/-- Modelled from the spec: the `status` module imported by smtp.py is not part
of the sources; the spec's command table fixes the greeting / STARTTLS code
at 220. -/
def READY : Nat := 220

/-- Modelled from the spec: EHLO, MAIL, RCPT and the DATA terminator expect
code 250. -/
def OK : Nat := 250

/-- Modelled from the spec: AUTH PLAIN expects code 235. -/
def ACCEPTED : Nat := 235

/-- Modelled from the spec: DATA expects code 354. -/
def START_DATA : Nat := 354

/-- Modelled from the spec: QUIT expects code 221. -/
def CLOSE_OK : Nat := 221

end status

deriving instance DecidableEq for Except

/-- Structured model of the `RuntimeError` built by
`build_unexpected_status_error(status_code, expected)`: the two values that
the source interpolates into the message
"Unexpected status code: _ instead of _", in that order. -/
structure RuntimeErr where
  status_code : List Char
  expected : List Char
  deriving DecidableEq, Repr

/-- Embedding of `build_unexpected_status_error(status_code, expected)`
(smtp.py lines 380-382).  The source formats both arguments into a message
string; the structure keeps them as separate fields, in source order. -/
def build_unexpected_status_error (status_code expected : List Char) : RuntimeErr :=
  { status_code := status_code, expected := expected }

/-- The message string the source's `RuntimeError` would carry. -/
def RuntimeErr.message (e : RuntimeErr) : List Char :=
  "Unexpected status code: ".toList ++ e.status_code ++ " instead of ".toList ++ e.expected

/-- Embedding of `compare_status(code, response)` (smtp.py lines 376-377):
`str(code) == response[0:3]`. -/
def compare_status (code : Nat) (response : List Char) : Bool :=
  (toString code).toList == response.take 3

/-- Embedding of `wrap_in_brackets(email_address)` (smtp.py lines 358-364).
The Python indexing `email_address[0]` raises `IndexError` on the empty
string, so the embedding returns `none` there; otherwise it mirrors the two
conditional edits: prepend a bracket when the first character is not one,
then append a bracket when the (possibly new) last character is not one. -/
def wrap_in_brackets (email_address : List Char) : Option (List Char) :=
  match email_address with
  | [] => none
  | c :: cs =>
    let e1 := if c ≠ '<' then '<' :: c :: cs else c :: cs
    let e2 := if e1.getLast? ≠ some '>' then e1 ++ ['>'] else e1
    some e2

/-- Embedding of `build_auth_line(method, additional_param)` (smtp.py lines
367-373): the format string produces AUTH, a space, the method, a space, the
parameter, and CRLF. -/
def build_auth_line (method : List Char) (additional_param : List Char) : List Char :=
  "AUTH".toList ++ " ".toList ++ method ++ " ".toList ++ additional_param ++ CRLF

/-- The base64 alphabet, in index order. -/
def b64_alphabet : List Char :=
  "ABCDEFGHIJKLMNOPQRSTUVWXYZabcdefghijklmnopqrstuvwxyz0123456789+/".toList

/-- Character of a sextet value. -/
def b64c (n : Nat) : Char := b64_alphabet.getD n 'A'

/-- Sextet value of a base64 character (the index in the alphabet). -/
def b64v (ch : Char) : Nat := b64_alphabet.findIdx (fun c => c == ch)

/-- Model of Python's `base64.b64encode` on byte strings (the encoding
primitive the source imports): standard RFC 4648 base64 with padding.  Each
group of three bytes becomes four alphabet characters; a trailing group of two
or one bytes is padded with one or two `=` characters. -/
def b64encode : List Nat → List Char
  | a :: b :: c :: rest =>
    b64c (a / 4) :: b64c (a % 4 * 16 + b / 16) :: b64c (b % 16 * 4 + c / 64) ::
      b64c (c % 64) :: b64encode rest
  | [a, b] => [b64c (a / 4), b64c (a % 4 * 16 + b / 16), b64c (b % 16 * 4), '=']
  | [a] => [b64c (a / 4), b64c (a % 4 * 16), '=', '=']
  | [] => []

/-- Model of base64 decoding, the inverse direction of `b64encode`: four
characters at a time, honouring `=` padding in the final group. -/
def b64decode : List Char → List Nat
  | c1 :: c2 :: c3 :: c4 :: rest =>
    if c3 = '=' then [b64v c1 * 4 + b64v c2 / 16]
    else if c4 = '=' then
      [b64v c1 * 4 + b64v c2 / 16, b64v c2 % 16 * 16 + b64v c3 / 4]
    else
      (b64v c1 * 4 + b64v c2 / 16) :: (b64v c2 % 16 * 16 + b64v c3 / 4) ::
        (b64v c3 % 4 * 64 + b64v c4) :: b64decode rest
  | _ => []

/-- The packed credential string of `Smtp.authenticate_plain` (smtp.py line
154): `NULL + user + NULL + pass_phrase`. -/
def packed_credentials (user pass_phrase : List Nat) : List Nat :=
  NULL ++ user ++ NULL ++ pass_phrase

/-- Splitting a byte string at every NUL byte, as in the spec's round-trip
property ("splitting on NUL"). -/
def splitOnNul : List Nat → List (List Nat)
  | [] => [[]]
  | b :: rest =>
    if b = 0 then [] :: splitOnNul rest
    else
      match splitOnNul rest with
      | [] => [[b]]
      | g :: gs => (b :: g) :: gs

/-- Transport identity held in the `self.sock` field.  `connect` uses the TCP
socket built in `__init__`; `ssl.SSLSocket(self.sock)` wraps the previous
transport in a TLS layer (smtp.py line 135). -/
inductive Transport where
  | tcp (id : Nat)
  | sslSocket (inner : Transport)
  deriving DecidableEq, Repr

/-- The mutable state of an `Smtp` object: the current transport, whether
`close()` has been called on it, and the members stored by `__init__`. -/
structure SmtpState where
  sock : Transport
  sockClosed : Bool
  server_ip : List Char
  port : Nat
  deriving DecidableEq, Repr

/-- Embedding of `Smtp.__init__(server_ip, port=SMTP_PORT)` (smtp.py lines
19-38): stores the ip and the port and creates a fresh TCP socket. -/
def Smtp.init (server_ip : List Char) (port : Nat) : SmtpState :=
  { sock := Transport.tcp 0, sockClosed := false, server_ip := server_ip, port := port }

/-- Embedding of `Smtp.connect` (smtp.py lines 40-70).  The first component is
the `(ip, port)` pair passed to `self.sock.connect` — the source passes the
constant `SMTP_PORT`, not the stored `self.port`.  No command is sent; one
reply is read and its first three characters are compared against
`str(status.READY)`. -/
def Smtp.connect (self : SmtpState) (response : List Char) :
    (List Char × Nat) × SmtpState × Except RuntimeErr (List Char) :=
  ((self.server_ip, SMTP_PORT),
    let code := response.take 3
    if code ≠ (toString status.READY).toList then
      (self, Except.error (build_unexpected_status_error code (toString status.READY).toList))
    else
      (self, Except.ok response))

/-- Embedding of `Smtp.ehlo` (smtp.py lines 72-102).  On a reply whose code is
not `status.OK` the source builds the error with arguments
`(status.OK, response[0:3])` — in that order — and raises it. -/
def Smtp.ehlo (self : SmtpState) (response : List Char) :
    List Char × SmtpState × Except RuntimeErr (List Char) :=
  ("EHLO".toList ++ CRLF,
    if compare_status status.OK response then
      (self, Except.ok response)
    else
      (self, Except.error (build_unexpected_status_error
        (toString status.OK).toList (response.take 3))))

/-- Embedding of `Smtp.starttls` (smtp.py lines 104-137).  On a `status.READY`
reply the source replaces `self.sock` with `ssl.SSLSocket(self.sock)`;
otherwise it raises — building the error with `(response[0:3], status.READY)`
— and leaves `self.sock` untouched. -/
def Smtp.starttls (self : SmtpState) (response : List Char) :
    List Char × SmtpState × Except RuntimeErr (List Char) :=
  ("STARTTLS".toList ++ CRLF,
    if compare_status status.READY response then
      ({ self with sock := Transport.sslSocket self.sock }, Except.ok response)
    else
      (self, Except.error (build_unexpected_status_error
        (response.take 3) (toString status.READY).toList)))

/-- Embedding of `Smtp.authenticate_plain(user, pass_phrase)` (smtp.py lines
139-180).  The command line is `build_auth_line("PLAIN", b64encode(NULL +
user + NULL + pass_phrase))`.  On a reply whose code is not
`status.ACCEPTED` the source builds (and logs) a `RuntimeError` but does not
raise it: it returns `(False, response)`; on an accepted reply it returns
`(True, response)`. -/
def Smtp.authenticate_plain (self : SmtpState) (user pass_phrase : List Nat)
    (response : List Char) :
    List Char × SmtpState × Except RuntimeErr (Bool × List Char) :=
  let encoded_credentials := b64encode (packed_credentials user pass_phrase)
  let command_line := build_auth_line "PLAIN".toList encoded_credentials
  (command_line,
    if compare_status status.ACCEPTED response then
      (self, Except.ok (true, response))
    else
      (self, Except.ok (false, response)))

/-- Embedding of `Smtp.mail(sender_address, body)` (smtp.py lines 182-222).
The format string `"{0} {1} {2}{3}"` (positional in the source) places a
space between the FROM parameter and the BODY parameter even when the latter
is empty.  Wrapping the sender address fails (Python `IndexError`) on the
empty address, hence the `Option`. -/
def Smtp.mail (self : SmtpState) (sender_address : List Char) (body : List Char)
    (response : List Char) :
    Option (List Char × SmtpState × Except RuntimeErr (List Char)) :=
  (wrap_in_brackets sender_address).map fun wrapped =>
    let body_param := if body.isEmpty then [] else "BODY=".toList ++ body
    let from_param := "FROM:".toList ++ wrapped
    let command_line :=
      "MAIL".toList ++ " ".toList ++ from_param ++ " ".toList ++ body_param ++ CRLF
    (command_line,
      if compare_status status.OK response then
        (self, Except.ok response)
      else
        (self, Except.error (build_unexpected_status_error
          (toString status.OK).toList (response.take 3))))

/-- Embedding of `Smtp.send_recipients(recipient)` (smtp.py lines 224-259):
`RCPT TO:` followed by the wrapped recipient and CRLF. -/
def Smtp.send_recipients (self : SmtpState) (recipient : List Char)
    (response : List Char) :
    Option (List Char × SmtpState × Except RuntimeErr (List Char)) :=
  (wrap_in_brackets recipient).map fun wrapped =>
    let command_line := "RCPT".toList ++ " ".toList ++ "TO:".toList ++ wrapped ++ CRLF
    (command_line,
      if compare_status status.OK response then
        (self, Except.ok response)
      else
        (self, Except.error (build_unexpected_status_error
          (toString status.OK).toList (response.take 3))))

/-- Embedding of `Smtp.send_body(body)` (smtp.py lines 261-266): sends the raw
body bytes, reads no reply, changes no state. -/
def Smtp.send_body (self : SmtpState) (body : List Char) : List Char × SmtpState :=
  (body, self)

/-- Embedding of `Smtp.initiate_data` (smtp.py lines 268-294): sends `DATA`
with CRLF, expects `status.START_DATA`; the error (as in the source) is built
with `(status.OK, response[0:3])`. -/
def Smtp.initiate_data (self : SmtpState) (response : List Char) :
    List Char × SmtpState × Except RuntimeErr (List Char) :=
  ("DATA\r\n".toList,
    if compare_status status.START_DATA response then
      (self, Except.ok response)
    else
      (self, Except.error (build_unexpected_status_error
        (toString status.OK).toList (response.take 3))))

/-- Embedding of `Smtp.end_data` (smtp.py lines 296-324): sends the terminator
CRLF `.` CRLF and expects `status.OK`. -/
def Smtp.end_data (self : SmtpState) (response : List Char) :
    List Char × SmtpState × Except RuntimeErr (List Char) :=
  (CRLF ++ ['.'] ++ CRLF,
    if compare_status status.OK response then
      (self, Except.ok response)
    else
      (self, Except.error (build_unexpected_status_error
        (toString status.OK).toList (response.take 3))))

/-- Embedding of `Smtp.quit_terminate` (smtp.py lines 326-355): sends `QUIT`
with CRLF.  On a `status.CLOSE_OK` reply it calls `self.sock.close()` and
returns the reply; on any other reply it raises — built with arguments
`(status.CLOSE_OK, response[0:3])` — before reaching the `close()` call, so
the transport stays open. -/
def Smtp.quit_terminate (self : SmtpState) (response : List Char) :
    List Char × SmtpState × Except RuntimeErr (List Char) :=
  ("QUIT".toList ++ CRLF,
    if compare_status status.CLOSE_OK response then
      ({ self with sockClosed := true }, Except.ok response)
    else
      (self, Except.error (build_unexpected_status_error
        (toString status.CLOSE_OK).toList (response.take 3))))

/-! ## Helper lemmas -/

/-- Decoding the alphabet character of a sextet value recovers the value. -/
theorem b64v_b64c : ∀ n : Nat, n < 64 → b64v (b64c n) = n := by decide

/-- No alphabet character is the padding character. -/
theorem b64c_ne_pad : ∀ n : Nat, n < 64 → b64c n ≠ '=' := by decide

/-- Base64 round-trip on byte strings: decoding an encoding recovers the
bytes. -/
theorem b64decode_b64encode (bs : List Nat) (h : ∀ x ∈ bs, x < 256) :
    b64decode (b64encode bs) = bs := by
  induction bs using b64encode.induct with
  | case4 => rfl
  | case3 a =>
    have ha : a < 256 := h a (by simp)
    simp only [b64encode, b64decode, if_pos]
    rw [b64v_b64c _ (by omega), b64v_b64c _ (by omega)]
    have hx : a / 4 * 4 + a % 4 * 16 / 16 = a := by omega
    rw [hx]
  | case2 a b =>
    have ha : a < 256 := h a (by simp)
    have hb : b < 256 := h b (by simp)
    simp only [b64encode, b64decode]
    rw [if_neg (b64c_ne_pad _ (by omega))]
    rw [if_pos trivial]
    rw [b64v_b64c _ (by omega), b64v_b64c _ (by omega), b64v_b64c _ (by omega)]
    have h1 : a / 4 * 4 + (a % 4 * 16 + b / 16) / 16 = a := by omega
    have h2 : (a % 4 * 16 + b / 16) % 16 * 16 + b % 16 * 4 / 4 = b := by omega
    rw [h1, h2]
  | case1 a b c rest ih =>
    have ha : a < 256 := h a (by simp)
    have hb : b < 256 := h b (by simp)
    have hc : c < 256 := h c (by simp)
    have hrest : ∀ x ∈ rest, x < 256 := fun x hx => h x (by simp [hx])
    simp only [b64encode, b64decode]
    rw [if_neg (b64c_ne_pad _ (by omega)), if_neg (b64c_ne_pad _ (by omega))]
    rw [b64v_b64c _ (by omega), b64v_b64c _ (by omega), b64v_b64c _ (by omega),
      b64v_b64c _ (by omega)]
    rw [ih hrest]
    have h1 : a / 4 * 4 + (a % 4 * 16 + b / 16) / 16 = a := by omega
    have h2 : (a % 4 * 16 + b / 16) % 16 * 16 + (b % 16 * 4 + c / 64) / 4 = b := by omega
    have h3 : (b % 16 * 4 + c / 64) % 4 * 64 + c % 64 = c := by omega
    rw [h1, h2, h3]

/-- Splitting a NUL-free byte string on NUL yields the single field. -/
theorem splitOnNul_no_nul (l : List Nat) (h : 0 ∉ l) : splitOnNul l = [l] := by
  induction l with
  | nil => rfl
  | cons b rest ih =>
    have hb : b ≠ 0 := fun hb => h (by simp [hb])
    have hrest : 0 ∉ rest := fun hx => h (by simp [hx])
    simp [splitOnNul, hb, ih hrest]

/-- Splitting a string that is a NUL-free field, a NUL, and a remainder peels
off the field. -/
theorem splitOnNul_append_nul (u v : List Nat) (h : 0 ∉ u) :
    splitOnNul (u ++ 0 :: v) = u :: splitOnNul v := by
  induction u with
  | nil => simp [splitOnNul]
  | cons b rest ih =>
    have hb : b ≠ 0 := fun hb => h (by simp [hb])
    have hrest : 0 ∉ rest := fun hx => h (by simp [hx])
    simp [splitOnNul, hb, ih hrest]

/-- The last element of a cons of a concat. -/
theorem getLast?_cons_concat (a : Char) (l : List Char) (b : Char) :
    (a :: (l ++ [b])).getLast? = some b :=
  List.getLast?_concat (a :: l)

/-- Every successful wrap starts with an opening bracket and ends with a
closing bracket. -/
theorem wrap_head_last (x y : List Char) (h : wrap_in_brackets x = some y) :
    y.head? = some '<' ∧ y.getLast? = some '>' := by
  match x with
  | [] => exact absurd h (by simp [wrap_in_brackets])
  | c :: cs =>
    simp only [wrap_in_brackets, Option.some.injEq] at h
    subst h
    by_cases hc : c = '<'
    · subst hc
      by_cases hg : ('<' :: cs).getLast? = some '>'
      · simp [hg]
      · simp only [ne_eq, not_true_eq_false, if_false, hg, not_false_eq_true, if_true]
        exact ⟨rfl, getLast?_cons_concat '<' cs '>'⟩
    · by_cases hg : ('<' :: c :: cs).getLast? = some '>'
      · simp only [ne_eq, hc, not_false_eq_true, if_true, hg, not_true_eq_false, if_false]
        exact ⟨rfl, trivial⟩
      · simp only [ne_eq, hc, not_false_eq_true, if_true, hg, if_true]
        exact ⟨rfl, getLast?_cons_concat '<' (c :: cs) '>'⟩

/-- An address that already starts with an opening bracket and ends with a
closing bracket passes through the wrapper unchanged. -/
theorem wrap_fixed (y : List Char) (h1 : y.head? = some '<') (h2 : y.getLast? = some '>') :
    wrap_in_brackets y = some y := by
  match y with
  | [] => simp at h1
  | c :: cs =>
    have hc : c = '<' := by simpa using h1
    subst hc
    simp [wrap_in_brackets, h2]

/-! ## Claim theorems -/

/-- C6: for every code and every reply string, `compare_status` returns true
if and only if the first three characters of the reply equal the string form
of the code, regardless of any trailing content of the reply (it is a total
predicate, so it never raises). -/
theorem compare_status_first_three (code : Nat) (response : List Char) :
    (compare_status code response = true ↔ response.take 3 = (toString code).toList) ∧
    (∀ t : List Char, response.length = 3 →
      compare_status code (response ++ t) = compare_status code response) := by
  constructor
  · simp only [compare_status, beq_iff_eq]
    exact eq_comm
  · intro t hlen
    have h1 : (response ++ t).take 3 = response := by rw [← hlen, List.take_left]
    have h2 : response.take 3 = response := by rw [← hlen, List.take_length]
    simp [compare_status, h1, h2]

/-- Witness for C6 at code 250 with reply "250 ok" and with trailing content
" extra" appended to "250". -/
theorem compare_status_first_three_witness :
    (compare_status 250 "250 ok".toList = true ↔
      ("250 ok".toList).take 3 = (toString 250).toList) ∧
    compare_status 250 ("250".toList ++ " extra".toList) =
      compare_status 250 "250".toList := by
  refine ⟨(compare_status_first_three 250 "250 ok".toList).1, ?_⟩
  exact (compare_status_first_three 250 "250".toList).2 " extra".toList (by decide)

/-- C9: `connect` always connects to the fixed constant port `SMTP_PORT = 25`,
whatever port was supplied to the constructor, and the stored port member has
no effect on the connection target. -/
theorem connect_uses_constant_port (server_ip : List Char) (port : Nat)
    (response : List Char) :
    (Smtp.connect (Smtp.init server_ip port) response).1 = (server_ip, 25) ∧
    (Smtp.init server_ip port).port = port ∧
    (Smtp.connect (Smtp.init server_ip 587) response).1 =
      (Smtp.connect (Smtp.init server_ip 25) response).1 :=
  ⟨rfl, rfl, rfl⟩

/-- C10: wrapping is undefined (a Python `IndexError`) on the empty address,
and on every non-empty address it succeeds and produces a bracketed
address. -/
theorem wrap_empty_address_guard :
    wrap_in_brackets [] = none ∧
    ∀ x : List Char, x ≠ [] → ∃ w, wrap_in_brackets x = some w ∧
      w.head? = some '<' ∧ w.getLast? = some '>' := by
  refine ⟨rfl, ?_⟩
  intro x hx
  match x, hx with
  | c :: cs, _ => exact ⟨_, rfl, wrap_head_last (c :: cs) _ rfl⟩

/-- Witness for C10 at the one-character address "a". -/
theorem wrap_empty_address_guard_witness :
    ∃ w, wrap_in_brackets "a".toList = some w ∧
      w.head? = some '<' ∧ w.getLast? = some '>' :=
  wrap_empty_address_guard.2 "a".toList (by decide)

/-- C5: address wrapping is idempotent on every input (with failure propagated
through `Option.bind`); an address that already starts with an opening
bracket and ends with a closing bracket is returned unchanged; and the same
`wrap_in_brackets` function produces the address sent by both the MAIL and
the RCPT commands. -/
theorem wrap_idempotent_and_shared :
    (∀ x : List Char, (wrap_in_brackets x).bind wrap_in_brackets = wrap_in_brackets x) ∧
    (∀ x : List Char, x.head? = some '<' → x.getLast? = some '>' →
      wrap_in_brackets x = some x) ∧
    (∀ (self : SmtpState) (a body response : List Char),
      (Smtp.mail self a body response).map (fun r => r.1) =
        (wrap_in_brackets a).map (fun w =>
          "MAIL".toList ++ " ".toList ++ ("FROM:".toList ++ w) ++ " ".toList ++
            (if body.isEmpty then [] else "BODY=".toList ++ body) ++ CRLF)) ∧
    (∀ (self : SmtpState) (a response : List Char),
      (Smtp.send_recipients self a response).map (fun r => r.1) =
        (wrap_in_brackets a).map (fun w =>
          "RCPT".toList ++ " ".toList ++ "TO:".toList ++ w ++ CRLF)) := by
  refine ⟨?_, wrap_fixed, ?_, ?_⟩
  · intro x
    cases h : wrap_in_brackets x with
    | none => rfl
    | some y =>
      have hy := wrap_head_last x y h
      simp [wrap_fixed y hy.1 hy.2]
  · intro self a body response
    cases h : wrap_in_brackets a with
    | none => simp [Smtp.mail, h]
    | some w => simp [Smtp.mail, h]
  · intro self a response
    cases h : wrap_in_brackets a with
    | none => simp [Smtp.send_recipients, h]
    | some w => simp [Smtp.send_recipients, h]

/-- Witness for C5: idempotence evaluated at "a", and the fixed-point clause
applied at the already-bracketed address. -/
theorem wrap_idempotent_and_shared_witness :
    (wrap_in_brackets "a".toList).bind wrap_in_brackets = wrap_in_brackets "a".toList ∧
    wrap_in_brackets "<a>".toList = some "<a>".toList :=
  ⟨wrap_idempotent_and_shared.1 "a".toList,
    wrap_idempotent_and_shared.2.1 "<a>".toList (by decide) (by decide)⟩

/-- C2: `authenticate_plain` never raises an unexpected-status error for any
reply: the result is `ok` with the success flag true exactly when the reply
code is 235, the reply is returned either way, and the session state is left
unchanged (usable for a retry). -/
theorem authenticate_plain_never_raises (self : SmtpState) (user pass_phrase : List Nat)
    (response : List Char) :
    (Smtp.authenticate_plain self user pass_phrase response).2.2 =
      Except.ok (compare_status status.ACCEPTED response, response) ∧
    (Smtp.authenticate_plain self user pass_phrase response).2.1 = self ∧
    (compare_status status.ACCEPTED response = true ↔
      response.take 3 = "235".toList) := by
  refine ⟨?_, ?_, ?_⟩
  · by_cases h : compare_status status.ACCEPTED response <;>
      simp [Smtp.authenticate_plain, h]
  · by_cases h : compare_status status.ACCEPTED response <;>
      simp [Smtp.authenticate_plain, h]
  · have h235 : (toString status.ACCEPTED).toList = "235".toList := by decide
    rw [compare_status, h235, beq_iff_eq]
    exact eq_comm

/-- C1 counterexample: against the non-221 reply "500 bye", `quit_terminate`
raises before reaching the `close()` call, so the transport is left open —
refuting the claim that the transport is closed unconditionally. -/
theorem quit_transport_left_open_on_500 :
    (Smtp.quit_terminate (Smtp.init "ip".toList 25) "500 bye".toList).2.1.sockClosed
      = false ∧
    (Smtp.quit_terminate (Smtp.init "ip".toList 25) "500 bye".toList).2.2 =
      Except.error (build_unexpected_status_error "221".toList "500".toList) := by
  decide

/-- C1 amended: for every reply, `quit_terminate` sends exactly QUIT followed
by CRLF; it closes the transport exactly when the reply code is 221 (then
returning the reply), and on any other code it raises the unexpected-status
error and leaves the state — in particular the still-open transport —
unchanged. -/
theorem quit_closes_transport_iff_221 (self : SmtpState) (response : List Char)
    (h : self.sockClosed = false) :
    (Smtp.quit_terminate self response).1 = "QUIT".toList ++ CRLF ∧
    ((Smtp.quit_terminate self response).2.1.sockClosed = true ↔
      compare_status status.CLOSE_OK response = true) ∧
    (compare_status status.CLOSE_OK response = true →
      (Smtp.quit_terminate self response).2.2 = Except.ok response) ∧
    (compare_status status.CLOSE_OK response = false →
      (Smtp.quit_terminate self response).2.1 = self ∧
      (Smtp.quit_terminate self response).2.2 =
        Except.error (build_unexpected_status_error
          (toString status.CLOSE_OK).toList (response.take 3))) := by
  by_cases hc : compare_status status.CLOSE_OK response <;>
    simp [Smtp.quit_terminate, hc, h]

/-- Witness for C1's amended claim at the reply "221 bye" on a freshly
constructed session. -/
theorem quit_closes_transport_iff_221_witness :
    (Smtp.quit_terminate (Smtp.init "ip".toList 25) "221 bye".toList).2.1.sockClosed
      = true ∧
    (Smtp.quit_terminate (Smtp.init "ip".toList 25) "221 bye".toList).2.2 =
      Except.ok "221 bye".toList := by
  have h := quit_closes_transport_iff_221 (Smtp.init "ip".toList 25) "221 bye".toList rfl
  exact ⟨h.2.1.mpr (by decide), h.2.2.1 (by decide)⟩

/-- C3 counterexample: with the empty body parameter the wire line for the
address "a" carries a space between the wrapped address and the CRLF, so it
differs from the claimed bytes with nothing in between. -/
theorem mail_empty_body_trailing_space_cx :
    (Smtp.mail (Smtp.init "ip".toList 25) "a".toList [] "250 ok".toList).map
      (fun r => r.1) = some ("MAIL FROM:<a> ".toList ++ CRLF) ∧
    ("MAIL FROM:<a> ".toList ++ CRLF : List Char) ≠ "MAIL FROM:<a>".toList ++ CRLF := by
  decide

/-- C3 amended: with a non-empty body parameter the wire bytes are MAIL FROM:
followed by the wrapped address, a space, BODY= with the parameter, and CRLF;
with the empty body parameter a single space stands between the wrapped
address and the CRLF. -/
theorem mail_wire_format (self : SmtpState) (sender_address body response w : List Char)
    (hw : wrap_in_brackets sender_address = some w) :
    (body ≠ [] →
      (Smtp.mail self sender_address body response).map (fun r => r.1) =
        some ("MAIL FROM:".toList ++ w ++ " BODY=".toList ++ body ++ CRLF)) ∧
    (body = [] →
      (Smtp.mail self sender_address body response).map (fun r => r.1) =
        some ("MAIL FROM:".toList ++ w ++ " ".toList ++ CRLF)) := by
  constructor
  · intro hb
    have hbe : body.isEmpty = false := by
      cases body with
      | nil => exact absurd rfl hb
      | cons x xs => rfl
    simp only [Smtp.mail, hw, Option.map_some', hbe, Bool.false_eq_true, if_false,
      List.append_assoc]
    rfl
  · intro hb
    subst hb
    simp only [Smtp.mail, hw, Option.map_some', List.isEmpty_nil, if_true,
      List.append_assoc]
    rfl

/-- Witness for C3's amended claim at address "a", once with body parameter
"8BITMIME" and once with the empty body parameter. -/
theorem mail_wire_format_witness :
    (Smtp.mail (Smtp.init "ip".toList 25) "a".toList "8BITMIME".toList
        "250 ok".toList).map (fun r => r.1) =
      some ("MAIL FROM:".toList ++ "<a>".toList ++ " BODY=".toList ++
        "8BITMIME".toList ++ CRLF) ∧
    (Smtp.mail (Smtp.init "ip".toList 25) "a".toList [] "250 ok".toList).map
      (fun r => r.1) = some ("MAIL FROM:".toList ++ "<a>".toList ++ " ".toList ++ CRLF) := by
  have h1 := mail_wire_format (Smtp.init "ip".toList 25) "a".toList "8BITMIME".toList
    "250 ok".toList "<a>".toList (by decide)
  have h2 := mail_wire_format (Smtp.init "ip".toList 25) "a".toList []
    "250 ok".toList "<a>".toList (by decide)
  exact ⟨h1.1 (by decide), h2.2 rfl⟩

/-- C4: evaluating the code at the failing input: against the reply
"500 error", `ehlo` raises the structured error with "250" in its first slot
(the slot the error message presents as the unexpected observed code) and
"500" in its `expected` slot — the reverse of the claimed
observed-"500" / expected-"250" assignment, which `starttls` and `connect`
use and which the helper's own parameter order prescribes. -/
theorem ehlo_error_fields_swapped_on_500 :
    (Smtp.ehlo (Smtp.init "ip".toList 25) "500 error".toList).2.2 =
      Except.error { status_code := "250".toList, expected := "500".toList } ∧
    (Smtp.ehlo (Smtp.init "ip".toList 25) "500 error".toList).2.2 ≠
      Except.error { status_code := "500".toList, expected := "250".toList } := by
  decide

/-- C7: the PLAIN credential token round-trips: base64-decoding the token and
splitting on NUL yields exactly the empty authorization identity, the user and
the secret, for all NUL-free byte strings; and that token is exactly what
`authenticate_plain` puts on the wire. -/
theorem auth_plain_credentials_roundtrip (user secret : List Nat)
    (hu : ∀ b ∈ user, b < 256) (hs : ∀ b ∈ secret, b < 256)
    (hu0 : 0 ∉ user) (hs0 : 0 ∉ secret) :
    splitOnNul (b64decode (b64encode (packed_credentials user secret))) =
      [[], user, secret] ∧
    ∀ (self : SmtpState) (response : List Char),
      (Smtp.authenticate_plain self user secret response).1 =
        build_auth_line "PLAIN".toList (b64encode (packed_credentials user secret)) := by
  constructor
  · have hshape : packed_credentials user secret = 0 :: (user ++ 0 :: secret) := by
      simp [packed_credentials, NULL]
    rw [hshape]
    have hall : ∀ b ∈ (0 :: (user ++ 0 :: secret) : List Nat), b < 256 := by
      intro b hb
      rcases List.mem_cons.mp hb with rfl | hb
      · omega
      · rcases List.mem_append.mp hb with hb | hb
        · exact hu b hb
        · rcases List.mem_cons.mp hb with rfl | hb
          · omega
          · exact hs b hb
    rw [b64decode_b64encode _ hall]
    rw [show splitOnNul (0 :: (user ++ 0 :: secret)) =
      [] :: splitOnNul (user ++ 0 :: secret) by simp [splitOnNul]]
    rw [splitOnNul_append_nul user secret hu0, splitOnNul_no_nul secret hs0]
  · intro self response
    rfl

/-- Witness for C7 at user "bob" and secret "secret" (as byte strings). -/
theorem auth_plain_credentials_roundtrip_witness :
    splitOnNul (b64decode (b64encode (packed_credentials [98, 111, 98]
      [115, 101, 99, 114, 101, 116]))) =
      [[], [98, 111, 98], [115, 101, 99, 114, 101, 116]] :=
  (auth_plain_credentials_roundtrip [98, 111, 98] [115, 101, 99, 114, 101, 116]
    (by decide) (by decide) (by decide) (by decide)).1

/-- C8: `starttls` sends exactly STARTTLS with CRLF; it replaces the session
transport with the TLS wrap of the old one exactly when the reply code is
220, raising and leaving the state unchanged otherwise; and no other session
operation ever replaces the transport, so after a successful upgrade every
later operation runs on the new stream. -/
theorem starttls_transport_swap (self : SmtpState) (response : List Char) :
    (Smtp.starttls self response).1 = "STARTTLS".toList ++ CRLF ∧
    (compare_status status.READY response = true →
      (Smtp.starttls self response).2.1.sock = Transport.sslSocket self.sock ∧
      (Smtp.starttls self response).2.2 = Except.ok response) ∧
    (compare_status status.READY response = false →
      (Smtp.starttls self response).2.1 = self ∧
      (Smtp.starttls self response).2.2 = Except.error (build_unexpected_status_error
        (response.take 3) (toString status.READY).toList)) ∧
    (Smtp.connect self response).2.1.sock = self.sock ∧
    (Smtp.ehlo self response).2.1.sock = self.sock ∧
    (∀ user pass_phrase : List Nat,
      (Smtp.authenticate_plain self user pass_phrase response).2.1.sock = self.sock) ∧
    (∀ a body out, Smtp.mail self a body response = some out →
      out.2.1.sock = self.sock) ∧
    (∀ a out, Smtp.send_recipients self a response = some out →
      out.2.1.sock = self.sock) ∧
    (∀ body, (Smtp.send_body self body).2.sock = self.sock) ∧
    (Smtp.initiate_data self response).2.1.sock = self.sock ∧
    (Smtp.end_data self response).2.1.sock = self.sock ∧
    (Smtp.quit_terminate self response).2.1.sock = self.sock := by
  refine ⟨rfl, ?_, ?_, ?_, ?_, ?_, ?_, ?_, fun body => rfl, ?_, ?_, ?_⟩
  · intro h
    simp [Smtp.starttls, h]
  · intro h
    simp [Smtp.starttls, h]
  · simp only [Smtp.connect]
    split <;> rfl
  · by_cases h : compare_status status.OK response <;> simp [Smtp.ehlo, h]
  · intro user pass_phrase
    by_cases h : compare_status status.ACCEPTED response <;>
      simp [Smtp.authenticate_plain, h]
  · intro a body out hout
    cases hw : wrap_in_brackets a with
    | none => simp [Smtp.mail, hw] at hout
    | some w =>
      simp only [Smtp.mail, hw, Option.map_some', Option.some.injEq] at hout
      subst hout
      by_cases h : compare_status status.OK response <;> simp [h]
  · intro a out hout
    cases hw : wrap_in_brackets a with
    | none => simp [Smtp.send_recipients, hw] at hout
    | some w =>
      simp only [Smtp.send_recipients, hw, Option.map_some', Option.some.injEq] at hout
      subst hout
      by_cases h : compare_status status.OK response <;> simp [h]
  · by_cases h : compare_status status.START_DATA response <;>
      simp [Smtp.initiate_data, h]
  · by_cases h : compare_status status.OK response <;> simp [Smtp.end_data, h]
  · by_cases h : compare_status status.CLOSE_OK response <;>
      simp [Smtp.quit_terminate, h]

/-- Witness for C8: upgrading against the reply "220 go" on a fresh session
wraps the TCP transport; a non-220 reply leaves it in place. -/
theorem starttls_transport_swap_witness :
    (Smtp.starttls (Smtp.init "ip".toList 25) "220 go".toList).2.1.sock =
      Transport.sslSocket (Smtp.init "ip".toList 25).sock ∧
    (Smtp.starttls (Smtp.init "ip".toList 25) "500 no".toList).2.1 =
      Smtp.init "ip".toList 25 := by
  have h1 := starttls_transport_swap (Smtp.init "ip".toList 25) "220 go".toList
  have h2 := starttls_transport_swap (Smtp.init "ip".toList 25) "500 no".toList
  exact ⟨(h1.2.1 (by decide)).1, (h2.2.2.1 (by decide)).1⟩
